import Mathlib

/-!
Verification of the branch-name-validator repository's relevance scorer and
simple validator against its specification.

JavaScript strings are embedded as `List Char` (one element per code point;
the inputs exercised by the spec are within the Basic Multilingual Plane, where
this coincides with JS code units).  Fallible operations (JS exceptions) are
embedded as `Except String`.
-/

/-- A JavaScript string, embedded as a list of characters. -/
abbrev Str := List Char

/-- Embeds `String.prototype.toLowerCase()`.  Lean's `Char.toLower` lowers the
ASCII range; the sources' category words, ticket IDs and keywords are ASCII. -/
def toLowerStr (s : Str) : Str := s.map Char.toLower

/-- Embeds `hay.includes(needle)` from `String.prototype.includes`:
`needle` occurs contiguously inside `hay` (always true for an empty needle). -/
def strIncludes : Str → Str → Bool
  | [], needle => needle.isEmpty
  | c :: t, needle => needle.isPrefixOf (c :: t) || strIncludes t needle

/-- Drops a leading run of `-` and `_`, the characters matched by the greedy
`[-_]*` part of the ticket-ID-removal regex (index_jira_backup.js:116). -/
def dropDashes : Str → Str
  | [] => []
  | c :: cs => if c = '-' || c = '_' then dropDashes cs else c :: cs

/-- Fuel-indexed worker for `removeTicketId`.  Every step consumes at least one
character of the input, so fuel equal to the input length never runs out; the
`0` case is unreachable for the fuel supplied by `removeTicketId`. -/
def removeTicketIdFuel (tid : Str) : Nat → Str → Str
  | _, [] => []
  | 0, s => s
  | Nat.succ n, c :: cs =>
    if !tid.isEmpty && tid.isPrefixOf (c :: cs) then
      removeTicketIdFuel tid n (dropDashes (List.drop tid.length (c :: cs)))
    else if tid.isEmpty then
      if c = '-' || c = '_' then removeTicketIdFuel tid n (dropDashes cs)
      else c :: removeTicketIdFuel tid n cs
    else
      c :: removeTicketIdFuel tid n cs

/-- Embeds `s.replace(new RegExp(tid + '[-_]*', 'g'), '')` for a ticket ID
`tid` that contains no regex metacharacters (index_jira_backup.js:115-116):
every leftmost occurrence of the literal `tid` followed by a greedy run of
`-`/`_` is deleted; for the empty `tid` the pattern `[-_]*` deletes every run
of `-`/`_` (zero-width matches elsewhere replace nothing). -/
def removeTicketId (tid s : Str) : Str := removeTicketIdFuel tid s.length s

/-- Drops a leading run of `-`, `_` and `/`, the characters matched by the
greedy `[-_\/]*` part of the category-stripping regex (index_jira_backup.js:117). -/
def dropSeps : Str → Str
  | [] => []
  | c :: cs => if c = '-' || c = '_' || c = '/' then dropSeps cs else c :: cs

/-- The category words of the alternation
`(feature|bugfix|hotfix|release|chore)` (index_jira_backup.js:117). -/
def categoryWords : List Str :=
  [['f','e','a','t','u','r','e'], ['b','u','g','f','i','x'], ['h','o','t','f','i','x'],
   ['r','e','l','e','a','s','e'], ['c','h','o','r','e']]

/-- Embeds `s.replace(/^(feature|bugfix|hotfix|release|chore)[-_\/]*/g, '')`
(index_jira_backup.js:117).  The pattern is anchored at the start, so despite
the `g` flag at most one occurrence is removed. -/
def stripCategory (s : Str) : Str :=
  match categoryWords.find? (fun w => w.isPrefixOf s) with
  | some w => dropSeps (s.drop w.length)
  | none => s

/-- The normalized candidate string `cleanName` of
index_jira_backup.js:112-117: lower-case the name, delete the (lower-cased)
ticket ID with its trailing separators, then strip one leading category word
with its trailing separators. -/
def cleanNameOf (name ticketId : Str) : Str :=
  stripCategory (removeTicketId (toLowerStr ticketId) (toLowerStr name))

/-- Regex metacharacters of JavaScript `RegExp` source text.  A ticket ID made
of other characters only is interpolated into the pattern
`tid + '[-_]*'` (index_jira_backup.js:116) as a literal search string. -/
def regexMeta : List Char :=
  ['\\', '^', '$', '.', '|', '?', '*', '+', '(', ')', '[', ']', '\x7b', '\x7d']

/-- Conservative model of `new RegExp(tid.toLowerCase() + '[-_]*', 'g')`
(index_jira_backup.js:116): when `tid` is free of regex metacharacters the
constructed pattern is valid and searches for the literal `tid`; when `tid`
contains a metacharacter the pattern may be syntactically invalid and throw a
`SyntaxError` (for example `tid = "("` yields the invalid pattern `([-_]*`),
so the embedding treats every metacharacter-bearing ticket ID as throwing. -/
def regexSafeStr (tid : Str) : Bool := tid.all (fun c => !regexMeta.contains c)

/-- The per-keyword match rule of index_jira_backup.js:119-123:
`cleanName.includes(keyword) || (keyword.length >= 4 &&
cleanName.includes(keyword.substring(0, 4)))`. -/
def keywordMatches (cleanName kw : Str) : Bool :=
  strIncludes cleanName kw || (decide (4 ≤ kw.length) && strIncludes cleanName (kw.take 4))

/-- The raw (unrounded) percentage of index_jira_backup.js:125:
`keywords.length > 0 ? (matchedKeywords.length / keywords.length) * 100 : 100`.
JS numbers are embedded as exact rationals; for the list sizes reached through
the keyword cap the JS double computation is exact. -/
def rawPercentage (matchedLen totalLen : Nat) : ℚ :=
  if 0 < totalLen then ((matchedLen : ℚ) / (totalLen : ℚ)) * 100 else 100

/-- The verdict object built by `validateContentRelevance`
(index_jira_backup.js:103-109 and 128-137).  The early no-summary return omits
`matchPercentage`, `matchedKeywords` and `allKeywords` (they read as
`undefined` in JS), hence the `Option` fields.  The display-only `message`
field (lines 106 and 134-136), which interpolates the raw float percentage and
the summary for human consumption and is used by no logic, is not modelled. -/
structure RelevanceVerdict where
  relevant : Bool
  matchPercentage : Option ℤ
  matchedKeywords : Option (List Str)
  missingKeywords : List Str
  allKeywords : Option (List Str)
deriving Repr, DecidableEq

/-- The scoring core of index_jira_backup.js:112-137 in the factored form of
spec §4.2, taking the already-extracted keyword list: normalize the candidate,
classify each keyword, compute the raw percentage, apply the hard-coded `>= 30`
relevance test (line 126), and round the reported percentage with
`Math.round` (round half toward positive infinity, Mathlib's `round`).
Returns `Except.error` when the interpolated ticket ID makes the regex of
line 116 invalid (see `regexSafeStr`). -/
def scoreRelevance (name : Str) (keywords : List Str) (ticketId : Str) :
    Except String RelevanceVerdict :=
  if regexSafeStr ticketId then
    let cleanName := cleanNameOf name ticketId
    let matched := keywords.filter (keywordMatches cleanName)
    let raw := rawPercentage matched.length keywords.length
    Except.ok
      { relevant := decide (30 ≤ raw)
        matchPercentage := some (round raw)
        matchedKeywords := some matched
        missingKeywords := keywords.filter (fun k => !matched.contains k)
        allKeywords := some keywords }
  else
    Except.error ("SyntaxError: Invalid regular expression")

/-- The early return of index_jira_backup.js:103-109 for a falsy ticket
summary: only `relevant`, `message` and `missingKeywords` are present. -/
def noSummaryVerdict : RelevanceVerdict :=
  { relevant := true
    matchPercentage := none
    matchedKeywords := none
    missingKeywords := []
    allKeywords := none }

/-- Minimum keyword length.  Modelled from the spec: the configuration default
documented in the repository is 3 (`JIRA_MIN_KEYWORD_LENGTH`, default 3). -/
def minKeywordLength : Nat := 3

/-- Maximum number of keywords retained.  Modelled from the spec: the
configuration default documented in the repository is 8
(`JIRA_MAX_KEYWORDS`, default 8). -/
def maxKeywords : Nat := 8

/-- Stoplist of common words.  Modelled from the spec: a fixed set of articles,
prepositions and generic words (spec §3, §4.1); contents are chosen to satisfy
the spec's scenario, which requires the summary
`"POC - create app to restrict gift cards"` to yield exactly the five keywords
`create, app, restrict, gift, cards` (so the generic marker `poc` is listed),
and the repository's documented example that filters out `the` and `new`. -/
def stopWords : List Str :=
  [("the".toList), ("a".toList), ("an".toList), ("to".toList), ("is".toList),
   ("of".toList), ("and".toList), ("or".toList), ("in".toList), ("on".toList),
   ("at".toList), ("for".toList), ("with".toList), ("this".toList),
   ("that".toList), ("from".toList), ("are".toList), ("was".toList),
   ("were".toList), ("be".toList), ("been".toList), ("will".toList),
   ("would".toList), ("can".toList), ("could".toList), ("should".toList),
   ("has".toList), ("have".toList), ("had".toList), ("not".toList),
   ("but".toList), ("all".toList), ("any".toList), ("some".toList),
   ("new".toList), ("poc".toList)]

/-- Splitting worker: accumulates the current alphanumeric token in reverse. -/
def tokenizeAux (cur : Str) : Str → List Str
  | [] => if cur.isEmpty then [] else [cur.reverse]
  | c :: cs =>
    if c.isAlphanum then tokenizeAux (c :: cur) cs
    else if cur.isEmpty then tokenizeAux [] cs
    else cur.reverse :: tokenizeAux [] cs

/-- Modelled from the spec: splits summary text on non-alphanumeric boundaries
into maximal alphanumeric tokens (spec §4.1). -/
def tokenize (s : Str) : List Str := tokenizeAux [] s

/-- The filter applied to each lower-cased token: long enough and not a stop
word (spec §4.1). -/
def keywordKeep (t : Str) : Bool :=
  decide (minKeywordLength ≤ t.length) && !stopWords.contains t

/-- Deduplication worker carrying the set of already-emitted tokens. -/
def dedupFirstAux (seen : List Str) : List Str → List Str
  | [] => []
  | x :: xs =>
    if seen.contains x then dedupFirstAux seen xs
    else x :: dedupFirstAux (x :: seen) xs

/-- Modelled from the spec: deduplication preserving first-seen order
(spec §4.1). -/
def dedupFirst (l : List Str) : List Str := dedupFirstAux [] l

/-- Modelled from the spec: `extractKeywords` is exported by
index_jira_backup.js:574 and exercised by the test file, but its definition is
absent from the provided sources.  Spec §4.1: split on non-alphanumeric
boundaries; lower-case each token; discard tokens shorter than the minimum
length; discard stoplist tokens; deduplicate preserving first-seen order;
truncate to the maximum keyword count. -/
def extractKeywords (text : Str) : List Str :=
  (dedupFirst (((tokenize text).map toLowerStr).filter keywordKeep)).take maxKeywords

/-- Embeds `validateContentRelevance(name, ticketSummary, ticketId)`
(index_jira_backup.js:102-138).  A falsy summary (JS: `null`, `undefined` or
the empty string, all embedded as `[]`) takes the early return of lines
103-109; otherwise keywords are extracted from the summary (line 111) and the
scoring core of lines 112-137 runs. -/
def validateContentRelevance (name summary ticketId : Str) :
    Except String RelevanceVerdict :=
  if summary.isEmpty then Except.ok noSummaryVerdict
  else scoreRelevance name (extractKeywords summary) ticketId

/-- Configuration of the simple validator (src/unnamed/part_002:32-35):
`PROJECT_KEYS` (default `SHOP,PROJ,TASK`) and `SKIP_VALIDATION`
(default false). -/
structure SimpleConfig where
  projectKeys : List Str
  skipValidation : Bool
deriving Repr, DecidableEq

/-- The default configuration when neither environment variable is set. -/
def defaultConfig : SimpleConfig :=
  { projectKeys := [("SHOP".toList), ("PROJ".toList), ("TASK".toList)]
    skipValidation := false }

/-- ASCII uppercase letter, the character class `[A-Z]` of the patterns in
src/unnamed/part_002:38-42. -/
def isUpperAZ (c : Char) : Bool := decide ('A' ≤ c) && decide (c ≤ 'Z')

/-- Tries the unanchored pattern `([A-Z]+)-(\d+)` at the start of `s`,
returning the whole match (`matches[0]`).  Both `+` quantifiers are greedy on
disjoint character classes, so maximal runs are exact. -/
def matchTicketAt (s : Str) : Option Str :=
  let letters := s.takeWhile isUpperAZ
  if letters.isEmpty then none else
  match s.drop letters.length with
  | '-' :: rest =>
    let digits := rest.takeWhile Char.isDigit
    if digits.isEmpty then none else some (letters ++ '-' :: digits)
  | _ => none

/-- Embeds `extractTicketId` (src/unnamed/part_002:47-50):
`name.match(/([A-Z]+)-(\d+)/)`, the leftmost match of the ticket pattern,
or `null` when there is none. -/
def extractTicketId : Str → Option Str
  | [] => none
  | c :: cs =>
    match matchTicketAt (c :: cs) with
    | some t => some t
    | none => extractTicketId cs

/-- Matches the anchored commit pattern `^([A-Z]+)-(\d+)-(.+)$`
(src/unnamed/part_002:40), returning the three capture groups. -/
def matchCommitParts (s : Str) : Option (Str × Str × Str) :=
  let letters := s.takeWhile isUpperAZ
  if letters.isEmpty then none else
  match s.drop letters.length with
  | '-' :: r2 =>
    let digits := r2.takeWhile Char.isDigit
    if digits.isEmpty then none else
    match r2.drop digits.length with
    | '-' :: desc => if desc.isEmpty then none else some (letters, digits, desc)
    | _ => none
  | _ => none

/-- Matches the anchored branch pattern
`^(feature|bugfix|hotfix|release|chore)\/([A-Z]+)-(\d+)-(.+)$`
(src/unnamed/part_002:39), returning the four capture groups. -/
def matchBranchParts (s : Str) : Option (Str × Str × Str × Str) :=
  match categoryWords.find? (fun w => (w ++ ['/']).isPrefixOf s) with
  | some w =>
    match matchCommitParts (s.drop (w.length + 1)) with
    | some (letters, digits, desc) => some (w, letters, digits, desc)
    | none => none
  | none => none

/-- A result object of the simple validator's functions
(src/unnamed/part_002).  Fields a given return statement omits read as
`undefined` in JS and are embedded as `none` / `false`. -/
structure SimpleResult where
  valid : Bool
  message : String
  ticketId : Option Str := none
  projectKey : Option Str := none
  suggestion : Option String := none
  skipped : Bool := false
deriving Repr, DecidableEq

/-- `CONFIG.projectKeys.join(', ')` rendered for error messages. -/
def joinKeys (cfg : SimpleConfig) : String :=
  String.intercalate (", ") (cfg.projectKeys.map String.mk)

/-- `getExpectedFormat('branch')` (src/unnamed/part_002:55-64); with an empty
key list JS would render `undefined`, here the empty string (the default
configuration always has keys). -/
def expectedBranch (cfg : SimpleConfig) : String :=
  String.mk (cfg.projectKeys.headD []) ++
    ("-1234-description (feature/bugfix/hotfix/release/chore prefix required)")

/-- `getExpectedFormat('commit')` (src/unnamed/part_002:55-64). -/
def expectedCommit (cfg : SimpleConfig) : String :=
  String.mk (cfg.projectKeys.headD []) ++ ("-1234-description")

/-- `ticketId.split('-')[0]` (src/unnamed/part_002:89). -/
def projectKeyOf (tid : Str) : Str := tid.takeWhile (fun c => !(c = '-'))

/-- Embeds `validateFormat(name, type)` (src/unnamed/part_002:69-103), with the
pattern-match result and the type-specific strings supplied by the caller. -/
def validateFormatWith (cfg : SimpleConfig) (name : Str) (matched : Bool)
    (typeName expected capStep : String) : SimpleResult :=
  if !matched then
    { valid := false
      message := ("❌ Invalid ") ++ typeName ++ (" format. Expected: ") ++ expected }
  else
    match extractTicketId name with
    | none =>
      { valid := false
        message := ("❌ No valid ticket ID found in ") ++ typeName }
    | some tid =>
      let key := projectKeyOf tid
      if cfg.projectKeys.contains key then
        { valid := true
          message := ("✅ ") ++ capStep ++ (" format is valid")
          ticketId := some tid
          projectKey := some key }
      else
        { valid := false
          message := ("❌ Invalid project key '") ++ String.mk key ++
            ("'. Valid keys: ") ++ joinKeys cfg }

/-- Worker for `description.replace(/\s+/g, '-')`: each maximal whitespace run
becomes a single dash; the flag records whether the previous character was
whitespace. -/
def squashWsAux : Bool → Str → Str
  | _, [] => []
  | prevWs, c :: cs =>
    if c.isWhitespace then
      (if prevWs then [] else ['-']) ++ squashWsAux true cs
    else c :: squashWsAux false cs

/-- `description.replace(/\s+/g, '-')` (src/unnamed/part_002:136). -/
def squashWs (s : Str) : Str := squashWsAux false s

/-- `description.replace(/_/g, '-')` (src/unnamed/part_002:145). -/
def underToDash (c : Char) : Char := if c = '_' then '-' else c

/-- Embeds the simple validator's `validateBranchName`
(src/unnamed/part_002:108-165): skip switch, format validation, then the
description checks for spaces, underscores and uppercase. -/
def validateBranchName (cfg : SimpleConfig) (branchName : Str) : SimpleResult :=
  if cfg.skipValidation then
    { valid := true
      message := ("✅ Branch validation skipped (SKIP_VALIDATION=true)")
      skipped := true }
  else
    let fmt := validateFormatWith cfg branchName (matchBranchParts branchName).isSome
      ("branch") (expectedBranch cfg) ("Branch")
    if !fmt.valid then fmt
    else
      match matchBranchParts branchName with
      | some (w, letters, digits, desc) =>
        if desc.contains ' ' then
          { valid := false
            message := ("❌ Branch description cannot contain spaces. Use dashes (-) instead")
            suggestion := some (String.mk (w ++ '/' :: letters ++ '-' :: digits ++ '-' :: squashWs desc)) }
        else if desc.contains '_' then
          { valid := false
            message := ("❌ Branch description cannot contain underscores. Use dashes (-) instead")
            suggestion := some (String.mk (w ++ '/' :: letters ++ '-' :: digits ++ '-' :: desc.map underToDash)) }
        else if desc ≠ toLowerStr desc then
          { valid := false
            message := ("❌ Branch description must be lowercase")
            suggestion := some (String.mk (w ++ '/' :: letters ++ '-' :: digits ++ '-' :: toLowerStr desc)) }
        else
          { valid := true
            message := ("✅ Branch name is valid")
            ticketId := fmt.ticketId
            projectKey := fmt.projectKey }
      | none =>
        { valid := true
          message := ("✅ Branch name is valid")
          ticketId := fmt.ticketId
          projectKey := fmt.projectKey }

/-- Embeds the simple validator's `validateCommitMessage`
(src/unnamed/part_002:170-227). -/
def validateCommitMessage (cfg : SimpleConfig) (commitMessage : Str) : SimpleResult :=
  if cfg.skipValidation then
    { valid := true
      message := ("✅ Commit validation skipped (SKIP_VALIDATION=true)")
      skipped := true }
  else
    let fmt := validateFormatWith cfg commitMessage (matchCommitParts commitMessage).isSome
      ("commit") (expectedCommit cfg) ("Commit")
    if !fmt.valid then fmt
    else
      match matchCommitParts commitMessage with
      | some (letters, digits, desc) =>
        if desc.contains ' ' then
          { valid := false
            message := ("❌ Commit description cannot contain spaces. Use dashes (-) instead")
            suggestion := some (String.mk (letters ++ '-' :: digits ++ '-' :: squashWs desc)) }
        else if desc.contains '_' then
          { valid := false
            message := ("❌ Commit description cannot contain underscores. Use dashes (-) instead")
            suggestion := some (String.mk (letters ++ '-' :: digits ++ '-' :: desc.map underToDash)) }
        else if desc ≠ toLowerStr desc then
          { valid := false
            message := ("❌ Commit description must be lowercase")
            suggestion := some (String.mk (letters ++ '-' :: digits ++ '-' :: toLowerStr desc)) }
        else
          { valid := true
            message := ("✅ Commit message is valid")
            ticketId := fmt.ticketId
            projectKey := fmt.projectKey }
      | none =>
        { valid := true
          message := ("✅ Commit message is valid")
          ticketId := fmt.ticketId
          projectKey := fmt.projectKey }

/-- The ticket-ID-mismatch message of src/unnamed/part_002:244. -/
def mismatchMessage (bt ct : Str) : String :=
  ("❌ Ticket ID mismatch: Branch has ") ++ String.mk bt ++
    (", commit has ") ++ String.mk ct

/-- The combined result of `validateBoth` (src/unnamed/part_002:232-258). -/
structure BothResult where
  valid : Bool
  message : String
  branchResult : SimpleResult
  commitResult : SimpleResult
deriving Repr, DecidableEq

/-- Embeds the simple validator's `validateBoth`
(src/unnamed/part_002:232-258).  The JS truthiness tests on the ticket IDs are
embedded as `isSome`: `extractTicketId` only ever produces non-empty (hence
truthy) match strings. -/
def validateBoth (cfg : SimpleConfig) (branchName commitMessage : Str) : BothResult :=
  let b := validateBranchName cfg branchName
  let c := validateCommitMessage cfg commitMessage
  if b.valid && c.valid && b.ticketId.isSome && c.ticketId.isSome &&
      !(b.ticketId == c.ticketId) then
    { valid := false
      message := mismatchMessage (b.ticketId.getD []) (c.ticketId.getD [])
      branchResult := b
      commitResult := c }
  else
    { valid := b.valid && c.valid
      message := if b.valid && c.valid then ("✅ Both branch and commit are valid")
        else ("❌ Validation failed")
      branchResult := b
      commitResult := c }

theorem toNat_ofNat_valid (m : Nat) (h : m.isValidChar) : (Char.ofNat m).toNat = m := by
  rw [Char.ofNat, dif_pos h]
  rfl

theorem toLower_idem (c : Char) : c.toLower.toLower = c.toLower := by
  simp only [Char.toLower]
  by_cases h : c.toNat ≥ 65 ∧ c.toNat ≤ 90
  · rw [if_pos h]
    have hv : (c.toNat + 32).isValidChar := Or.inl (by omega)
    rw [toNat_ofNat_valid _ hv, if_neg (by omega)]
  · rw [if_neg h, if_neg h]

theorem toLowerStr_idem (s : Str) : toLowerStr (toLowerStr s) = toLowerStr s := by
  simp only [toLowerStr, List.map_map]
  exact List.map_congr_left (fun c _ => toLower_idem c)

theorem scoreRelevance_ok (name : Str) (keywords : List Str) (ticketId : Str)
    (h : regexSafeStr ticketId = true) :
    scoreRelevance name keywords ticketId = Except.ok
      { relevant := decide (30 ≤ rawPercentage
          (keywords.filter (keywordMatches (cleanNameOf name ticketId))).length keywords.length)
        matchPercentage := some (round (rawPercentage
          (keywords.filter (keywordMatches (cleanNameOf name ticketId))).length keywords.length))
        matchedKeywords := some (keywords.filter (keywordMatches (cleanNameOf name ticketId)))
        missingKeywords := keywords.filter
          (fun k => !(keywords.filter (keywordMatches (cleanNameOf name ticketId))).contains k)
        allKeywords := some keywords } := by
  simp [scoreRelevance, h]

theorem scoreRelevance_eval (name : Str) (keywords : List Str) (ticketId : Str)
    (mc mu : List Str) (b : Bool) (r : ℤ)
    (hsafe : regexSafeStr ticketId = true)
    (hmc : keywords.filter (keywordMatches (cleanNameOf name ticketId)) = mc)
    (hmu : keywords.filter (fun k => !mc.contains k) = mu)
    (hb : decide (30 ≤ rawPercentage mc.length keywords.length) = b)
    (hr : round (rawPercentage mc.length keywords.length) = r) :
    scoreRelevance name keywords ticketId = Except.ok
      { relevant := b
        matchPercentage := some r
        matchedKeywords := some mc
        missingKeywords := mu
        allKeywords := some keywords } := by
  rw [scoreRelevance_ok name keywords ticketId hsafe, hmc, hmu, hb, hr]

/-- Claim C9: with the keyword set `[create, app, restrict, gift, cards]` and
ticket ID `SHOP-8548`, scoring the candidate `feature/SHOP-8548-gift-card-app`
matches `app`, `gift` and `cards` (the latter through the 4-character partial
match on `card`), misses `create` and `restrict`, and reports 60 percent. -/
theorem claim_C9 :
    scoreRelevance ("feature/SHOP-8548-gift-card-app".toList)
      [("create".toList), ("app".toList), ("restrict".toList), ("gift".toList), ("cards".toList)]
      ("SHOP-8548".toList) = Except.ok
      { relevant := true
        matchPercentage := some 60
        matchedKeywords := some [("app".toList), ("gift".toList), ("cards".toList)]
        missingKeywords := [("create".toList), ("restrict".toList)]
        allKeywords := some [("create".toList), ("app".toList), ("restrict".toList),
          ("gift".toList), ("cards".toList)] } := by
  apply scoreRelevance_eval
  · decide
  · decide
  · decide
  · norm_num [rawPercentage]
  · norm_num [rawPercentage, round_eq]

/-- Claim C1 counterexample: the verdict returned by the scorer does not only
report the percentage — it already carries the pass/fail decision in its
`relevant` field, computed inside the scoring function from the hard-coded
30-percent threshold of index_jira_backup.js:126: with one keyword of four
matched (25 percent) the verdict itself says fail, with two matched
(50 percent) it says pass. -/
theorem claim_C1_counterexample :
    scoreRelevance ("feature/SHOP-1-alpha".toList)
      [("alpha".toList), ("beta".toList), ("gamma".toList), ("delta".toList)]
      ("SHOP-1".toList) = Except.ok
      { relevant := false
        matchPercentage := some 25
        matchedKeywords := some [("alpha".toList)]
        missingKeywords := [("beta".toList), ("gamma".toList), ("delta".toList)]
        allKeywords := some [("alpha".toList), ("beta".toList), ("gamma".toList), ("delta".toList)] } ∧
    scoreRelevance ("feature/SHOP-1-alpha-beta".toList)
      [("alpha".toList), ("beta".toList), ("gamma".toList), ("delta".toList)]
      ("SHOP-1".toList) = Except.ok
      { relevant := true
        matchPercentage := some 50
        matchedKeywords := some [("alpha".toList), ("beta".toList)]
        missingKeywords := [("gamma".toList), ("delta".toList)]
        allKeywords := some [("alpha".toList), ("beta".toList), ("gamma".toList), ("delta".toList)] } := by
  constructor
  · apply scoreRelevance_eval
    · decide
    · decide
    · decide
    · norm_num [rawPercentage]
    · norm_num [rawPercentage, round_eq]
  · apply scoreRelevance_eval
    · decide
    · decide
    · decide
    · norm_num [rawPercentage]
    · norm_num [rawPercentage, round_eq]

/-- Claim C1 (amended): the scorer reports the match percentage and also
itself applies the hard-coded 30-percent threshold of
index_jira_backup.js:126 to the raw (unrounded) percentage, returning the
pass/fail decision in the verdict's `relevant` field; the threshold is not
external configuration applied by the caller. -/
theorem claim_C1_amended (name : Str) (keywords : List Str) (ticketId : Str)
    (v : RelevanceVerdict)
    (hok : scoreRelevance name keywords ticketId = Except.ok v) :
    v.relevant = true ↔
      30 ≤ rawPercentage
        (keywords.filter (keywordMatches (cleanNameOf name ticketId))).length
        keywords.length := by
  by_cases hsafe : regexSafeStr ticketId = true
  · rw [scoreRelevance_ok name keywords ticketId hsafe] at hok
    obtain rfl := (Except.ok.injEq _ _).mp hok.symm
    simp
  · simp only [Bool.not_eq_true] at hsafe
    simp [scoreRelevance, hsafe] at hok

/-- Witness for the amended claim C1 at a concrete input. -/
theorem claim_C1_witness :
    ∃ v, scoreRelevance ("feature/SHOP-1-alpha".toList)
      [("alpha".toList), ("beta".toList)] ("SHOP-1".toList) = Except.ok v ∧
      (v.relevant = true ↔
        30 ≤ rawPercentage
          ((([("alpha".toList), ("beta".toList)] : List Str)).filter
            (keywordMatches (cleanNameOf ("feature/SHOP-1-alpha".toList) ("SHOP-1".toList)))).length
          ([("alpha".toList), ("beta".toList)] : List Str).length) := by
  refine ⟨_, scoreRelevance_ok _ _ _ (by decide), ?_⟩
  exact claim_C1_amended _ _ _ _ (scoreRelevance_ok _ _ _ (by decide))

/-- Claim C5 counterexample: for an empty (missing) ticket summary the scorer
does not return a verdict of 100 percent with an empty matched list — the
early return of index_jira_backup.js:103-109 carries no `matchPercentage`
and no `matchedKeywords` field at all (they are `undefined` in JS). -/
theorem claim_C5_counterexample :
    validateContentRelevance ("x".toList) ("".toList) ("SHOP-1".toList) =
      Except.ok noSummaryVerdict ∧
    noSummaryVerdict.matchPercentage = none ∧
    noSummaryVerdict.matchedKeywords = none ∧
    noSummaryVerdict.missingKeywords = [] := by
  exact ⟨rfl, rfl, rfl, rfl⟩

/-- Claim C5 (amended): an empty or missing ticket summary returns, without
error and for every ticket ID, the early verdict with `relevant = true` and
empty `missingKeywords` but with no percentage and no matched list; a
non-empty summary whose extracted keyword set is empty returns, for every
ticket ID free of regex metacharacters, the full vacuous verdict of
100 percent with empty matched and missing lists. -/
theorem claim_C5_amended (name summary ticketId : Str) :
    (summary = [] →
      validateContentRelevance name summary ticketId = Except.ok noSummaryVerdict) ∧
    (summary ≠ [] → regexSafeStr ticketId = true → extractKeywords summary = [] →
      validateContentRelevance name summary ticketId = Except.ok
        { relevant := true
          matchPercentage := some 100
          matchedKeywords := some []
          missingKeywords := []
          allKeywords := some [] }) := by
  constructor
  · intro hs
    subst hs
    rfl
  · intro hs hsafe hk
    have hne : summary.isEmpty = false := by simp [List.isEmpty_iff, hs]
    unfold validateContentRelevance
    rw [hne]
    simp only [Bool.false_eq_true, if_false, hk]
    apply scoreRelevance_eval
    · exact hsafe
    · rfl
    · rfl
    · norm_num [rawPercentage]
    · norm_num [rawPercentage, round_eq]

/-- Witness for the amended claim C5 at concrete inputs: the empty summary and
the summary `"a to"`, whose tokens are all shorter than the minimum keyword
length. -/
theorem claim_C5_witness :
    validateContentRelevance ("x".toList) ("".toList) ("SHOP-1".toList) =
      Except.ok noSummaryVerdict ∧
    validateContentRelevance ("x".toList) ("a to".toList) ("SHOP-1".toList) = Except.ok
      { relevant := true
        matchPercentage := some 100
        matchedKeywords := some []
        missingKeywords := []
        allKeywords := some [] } := by
  constructor
  · exact (claim_C5_amended ("x".toList) ("".toList) ("SHOP-1".toList)).1 rfl
  · exact (claim_C5_amended ("x".toList) ("a to".toList) ("SHOP-1".toList)).2
      (by decide) (by decide) (by decide)

/-- Claim C6 counterexample: the scoring computation does not terminate
normally for every string ticket ID — with a non-empty summary and the ticket
ID `(`, index_jira_backup.js:116 builds the invalid regex `([-_]*` and
`new RegExp` throws a `SyntaxError`. -/
theorem claim_C6_counterexample :
    validateContentRelevance ("x".toList) ("hi".toList) ("(".toList) =
      Except.error ("SyntaxError: Invalid regular expression") := by
  rfl

/-- Claim C6 (amended): for every candidate name and ticket summary, and every
ticket ID free of regex metacharacters (in particular every ID of the standard
`PROJECT-number` shape), the scoring computation terminates normally and
returns a verdict; a ticket ID that forms an invalid regex makes it throw. -/
theorem claim_C6_amended (name summary ticketId : Str)
    (h : regexSafeStr ticketId = true) :
    ∃ v, validateContentRelevance name summary ticketId = Except.ok v := by
  unfold validateContentRelevance
  by_cases hs : summary.isEmpty
  · rw [hs]
    exact ⟨noSummaryVerdict, rfl⟩
  · simp only [Bool.not_eq_true] at hs
    rw [hs]
    simp only [Bool.false_eq_true, if_false]
    exact ⟨_, scoreRelevance_ok _ _ _ h⟩

/-- Witness for the amended claim C6 at a concrete input. -/
theorem claim_C6_witness :
    ∃ v, validateContentRelevance ("feature/SHOP-2-x".toList) ("fix things".toList)
      ("SHOP-2".toList) = Except.ok v :=
  claim_C6_amended ("feature/SHOP-2-x".toList) ("fix things".toList) ("SHOP-2".toList)
    (by decide)

theorem scoreRelevance_ok_inv (name : Str) (keywords : List Str) (ticketId : Str)
    (v : RelevanceVerdict)
    (hok : scoreRelevance name keywords ticketId = Except.ok v) :
    regexSafeStr ticketId = true ∧ v =
      { relevant := decide (30 ≤ rawPercentage
          (keywords.filter (keywordMatches (cleanNameOf name ticketId))).length keywords.length)
        matchPercentage := some (round (rawPercentage
          (keywords.filter (keywordMatches (cleanNameOf name ticketId))).length keywords.length))
        matchedKeywords := some (keywords.filter (keywordMatches (cleanNameOf name ticketId)))
        missingKeywords := keywords.filter
          (fun k => !(keywords.filter (keywordMatches (cleanNameOf name ticketId))).contains k)
        allKeywords := some keywords } := by
  by_cases hsafe : regexSafeStr ticketId = true
  · rw [scoreRelevance_ok name keywords ticketId hsafe] at hok
    exact ⟨hsafe, ((Except.ok.injEq _ _).mp hok).symm⟩
  · simp only [Bool.not_eq_true] at hsafe
    simp [scoreRelevance, hsafe] at hok

theorem missing_filter_eq (keywords : List Str) (p : Str → Bool) :
    keywords.filter (fun k => !(keywords.filter p).contains k) =
      keywords.filter (fun k => !p k) := by
  apply List.filter_congr
  intro a ha
  cases hpa : p a
  · have hnm : a ∉ keywords.filter p := by
      intro hc
      rw [List.mem_filter, hpa] at hc
      exact absurd hc.2 (by simp)
    have : (keywords.filter p).contains a = false := by
      cases hc : (keywords.filter p).contains a
      · rfl
      · exact absurd (List.elem_iff.mp hc) hnm
    rw [this]
  · have hm : a ∈ keywords.filter p := List.mem_filter.mpr ⟨ha, hpa⟩
    have : (keywords.filter p).contains a = true := List.elem_iff.mpr hm
    rw [this]

/-- Claim C2: a keyword of the input set lands in `matchedKeywords` exactly
when the normalized candidate contains it verbatim as a substring, or the
keyword has length at least 4 and the normalized candidate contains its first
4 characters; keywords shorter than 4 characters match only verbatim
(index_jira_backup.js:119-123). -/
theorem claim_C2 (name : Str) (keywords : List Str) (ticketId kw : Str)
    (v : RelevanceVerdict)
    (hok : scoreRelevance name keywords ticketId = Except.ok v)
    (hmem : kw ∈ keywords) :
    ∃ mc, v.matchedKeywords = some mc ∧
      (kw ∈ mc ↔ (strIncludes (cleanNameOf name ticketId) kw = true ∨
        (4 ≤ kw.length ∧ strIncludes (cleanNameOf name ticketId) (kw.take 4) = true))) ∧
      (kw.length < 4 →
        (kw ∈ mc ↔ strIncludes (cleanNameOf name ticketId) kw = true)) := by
  obtain ⟨hsafe, rfl⟩ := scoreRelevance_ok_inv name keywords ticketId v hok
  refine ⟨_, rfl, ?_, ?_⟩
  · rw [List.mem_filter]
    simp [hmem, keywordMatches]
  · intro hlt
    have h4 : ¬ (4 ≤ kw.length) := by omega
    rw [List.mem_filter]
    simp [hmem, keywordMatches, h4]

/-- Witness for claim C2 at a concrete input: the keyword `cards` matches
`feature/SHOP-1-gift-cards` verbatim. -/
theorem claim_C2_witness :
    ∃ v, scoreRelevance ("feature/SHOP-1-gift-cards".toList) [("cards".toList)]
        ("SHOP-1".toList) = Except.ok v ∧
      ∃ mc, v.matchedKeywords = some mc ∧
        (("cards".toList) ∈ mc ↔
          (strIncludes (cleanNameOf ("feature/SHOP-1-gift-cards".toList) ("SHOP-1".toList))
              ("cards".toList) = true ∨
            (4 ≤ ("cards".toList).length ∧
              strIncludes (cleanNameOf ("feature/SHOP-1-gift-cards".toList) ("SHOP-1".toList))
                (("cards".toList).take 4) = true))) ∧
        (("cards".toList).length < 4 →
          (("cards".toList) ∈ mc ↔
            strIncludes (cleanNameOf ("feature/SHOP-1-gift-cards".toList) ("SHOP-1".toList))
              ("cards".toList) = true)) := by
  refine ⟨_, scoreRelevance_ok _ _ _ (by decide), ?_⟩
  exact claim_C2 _ _ _ _ _ (scoreRelevance_ok _ _ _ (by decide)) (by decide)

theorem rawPercentage_nonneg (m k : Nat) : 0 ≤ rawPercentage m k := by
  unfold rawPercentage
  split
  · positivity
  · norm_num

theorem rawPercentage_le_100 (m k : Nat) (h : m ≤ k) : rawPercentage m k ≤ 100 := by
  unfold rawPercentage
  split
  · rename_i hk
    have hk' : (0:ℚ) < k := by exact_mod_cast hk
    have h1 : (m:ℚ) / (k:ℚ) ≤ 1 := by
      rw [div_le_one hk']
      exact_mod_cast h
    nlinarith
  · norm_num

theorem round_nonneg_of (x : ℚ) (h : 0 ≤ x) : 0 ≤ round x := by
  rw [round_eq]
  exact Int.le_floor.mpr (by push_cast; linarith)

theorem round_le_100_of (x : ℚ) (h : x ≤ 100) : round x ≤ 100 := by
  rw [round_eq]
  have h2 : x + 1/2 < ((101 : ℤ) : ℚ) := by push_cast; linarith
  have := Int.floor_lt.mpr h2
  omega

/-- Claim C3: the reported `matchPercentage` is
`round(100 * matched / total)` for a non-empty keyword set, `100` for an empty
one, and in all cases an integer between 0 and 100
(index_jira_backup.js:125-130). -/
theorem claim_C3 (name : Str) (keywords : List Str) (ticketId : Str)
    (v : RelevanceVerdict)
    (hok : scoreRelevance name keywords ticketId = Except.ok v) :
    ∃ p mc, v.matchPercentage = some p ∧ v.matchedKeywords = some mc ∧
      (keywords ≠ [] →
        p = round ((100 * (mc.length : ℚ)) / (keywords.length : ℚ))) ∧
      (keywords = [] → p = 100) ∧
      0 ≤ p ∧ p ≤ 100 := by
  obtain ⟨hsafe, rfl⟩ := scoreRelevance_ok_inv name keywords ticketId v hok
  refine ⟨_, _, rfl, rfl, ?_, ?_, ?_, ?_⟩
  · intro hne
    have hpos : 0 < keywords.length := List.length_pos.mpr hne
    unfold rawPercentage
    rw [if_pos hpos]
    congr 1
    ring
  · intro he
    subst he
    simp [rawPercentage, round_eq]
  · exact round_nonneg_of _ (rawPercentage_nonneg _ _)
  · exact round_le_100_of _ (rawPercentage_le_100 _ _ (List.length_filter_le _ _))

/-- Witness for claim C3 at a concrete input. -/
theorem claim_C3_witness :
    ∃ p mc,
      ∃ v, scoreRelevance ("feature/SHOP-3-gift".toList) [("gift".toList), ("wrap".toList)]
          ("SHOP-3".toList) = Except.ok v ∧
        v.matchPercentage = some p ∧ v.matchedKeywords = some mc ∧
        p = round ((100 * (mc.length : ℚ)) / (([("gift".toList), ("wrap".toList)] : List Str).length : ℚ)) ∧
        0 ≤ p ∧ p ≤ 100 := by
  obtain ⟨p, mc, h1, h2, h3, _, h5, h6⟩ :=
    claim_C3 ("feature/SHOP-3-gift".toList) [("gift".toList), ("wrap".toList)]
      ("SHOP-3".toList) _ (scoreRelevance_ok _ _ _ (by decide))
  exact ⟨p, mc, _, scoreRelevance_ok _ _ _ (by decide), h1, h2, h3 (by decide), h5, h6⟩

/-- Claim C4: `matchedKeywords` and `missingKeywords` partition the input
keyword set exactly — union is the whole set, intersection is empty, lengths
add up, and each is an ordered subsequence of the input list
(index_jira_backup.js:119-132). -/
theorem claim_C4 (name : Str) (keywords : List Str) (ticketId : Str)
    (v : RelevanceVerdict)
    (hok : scoreRelevance name keywords ticketId = Except.ok v) :
    ∃ mc, v.matchedKeywords = some mc ∧
      (∀ kw, kw ∈ keywords ↔ (kw ∈ mc ∨ kw ∈ v.missingKeywords)) ∧
      (∀ kw, ¬(kw ∈ mc ∧ kw ∈ v.missingKeywords)) ∧
      List.Sublist mc keywords ∧
      List.Sublist v.missingKeywords keywords ∧
      mc.length + v.missingKeywords.length = keywords.length := by
  obtain ⟨hsafe, rfl⟩ := scoreRelevance_ok_inv name keywords ticketId v hok
  simp only [missing_filter_eq]
  refine ⟨_, rfl, ?_, ?_, List.filter_sublist _, List.filter_sublist _, ?_⟩
  · intro kw
    constructor
    · intro hkw
      by_cases hp : keywordMatches (cleanNameOf name ticketId) kw = true
      · exact Or.inl (List.mem_filter.mpr ⟨hkw, hp⟩)
      · refine Or.inr (List.mem_filter.mpr ⟨hkw, ?_⟩)
        simp only [Bool.not_eq_true] at hp
        simp [hp]
    · intro hkw
      rcases hkw with h | h
      · exact (List.mem_filter.mp h).1
      · exact (List.mem_filter.mp h).1
  · intro kw hkw
    have h1 := (List.mem_filter.mp hkw.1).2
    have h2 := (List.mem_filter.mp hkw.2).2
    rw [h1] at h2
    exact absurd h2 (by simp)
  · exact (List.length_eq_length_filter_add _).symm

/-- Witness for claim C4 at a concrete input. -/
theorem claim_C4_witness :
    ∃ mc v, scoreRelevance ("feature/SHOP-4-fix-login".toList)
        [("login".toList), ("page".toList)] ("SHOP-4".toList) = Except.ok v ∧
      v.matchedKeywords = some mc ∧
      (("login".toList) ∈ ([("login".toList), ("page".toList)] : List Str) ↔
        (("login".toList) ∈ mc ∨ ("login".toList) ∈ v.missingKeywords)) ∧
      mc.length + v.missingKeywords.length =
        ([("login".toList), ("page".toList)] : List Str).length := by
  obtain ⟨mc, h1, h2, _, _, _, h6⟩ :=
    claim_C4 ("feature/SHOP-4-fix-login".toList) [("login".toList), ("page".toList)]
      ("SHOP-4".toList) _ (scoreRelevance_ok _ _ _ (by decide))
  exact ⟨mc, _, scoreRelevance_ok _ _ _ (by decide), h1, h2 _, h6⟩

theorem dedupFirstAux_sublist (seen l : List Str) :
    List.Sublist (dedupFirstAux seen l) l := by
  induction l generalizing seen with
  | nil => simp [dedupFirstAux]
  | cons x xs ih =>
    unfold dedupFirstAux
    by_cases h : seen.contains x = true
    · rw [if_pos h]
      exact (ih seen).cons x
    · rw [if_neg h]
      exact (ih (x :: seen)).cons₂ x

theorem dedupFirstAux_not_mem_seen (seen l : List Str) (a : Str)
    (ha : a ∈ dedupFirstAux seen l) : a ∉ seen := by
  induction l generalizing seen with
  | nil => simp [dedupFirstAux] at ha
  | cons x xs ih =>
    unfold dedupFirstAux at ha
    by_cases h : seen.contains x = true
    · rw [if_pos h] at ha
      exact ih seen ha
    · rw [if_neg h] at ha
      rcases List.mem_cons.mp ha with rfl | hmem
      · intro hs
        exact h (List.elem_iff.mpr hs)
      · intro hs
        exact ih (x :: seen) hmem (List.mem_cons_of_mem x hs)

theorem dedupFirstAux_nodup (seen l : List Str) : (dedupFirstAux seen l).Nodup := by
  induction l generalizing seen with
  | nil => simp [dedupFirstAux]
  | cons x xs ih =>
    unfold dedupFirstAux
    by_cases h : seen.contains x = true
    · rw [if_pos h]
      exact ih seen
    · rw [if_neg h]
      refine List.Nodup.cons ?_ (ih (x :: seen))
      intro hmem
      exact dedupFirstAux_not_mem_seen (x :: seen) xs x hmem (List.mem_cons_self x seen)

/-- Claim C7: for every summary text, `extractKeywords` returns no duplicates,
no element shorter than the configured minimum keyword length, at most the
configured maximum number of keywords, and an ordered subsequence of the
filtered token stream (first-seen deduplication preserves source order). -/
theorem claim_C7 (text : Str) :
    (extractKeywords text).Nodup ∧
    (∀ kw ∈ extractKeywords text, minKeywordLength ≤ kw.length) ∧
    (extractKeywords text).length ≤ maxKeywords ∧
    List.Sublist (extractKeywords text)
      (((tokenize text).map toLowerStr).filter keywordKeep) := by
  unfold extractKeywords dedupFirst
  refine ⟨?_, ?_, ?_, ?_⟩
  · exact (List.take_sublist _ _).nodup (dedupFirstAux_nodup [] _)
  · intro kw hkw
    have h1 := List.take_subset _ _ hkw
    have h2 := (dedupFirstAux_sublist [] _).subset h1
    have h3 := (List.mem_filter.mp h2).2
    simp only [keywordKeep, Bool.and_eq_true, decide_eq_true_eq] at h3
    exact h3.1
  · exact List.length_take_le _ _
  · exact (List.take_sublist _ _).trans (dedupFirstAux_sublist [] _)

/-- Witness for claim C7 at a concrete input, the keyword `database` of the
summary `Fix database connection timeout issues`. -/
theorem claim_C7_witness :
    (extractKeywords ("Fix database connection timeout issues".toList)).Nodup ∧
    minKeywordLength ≤ ("database".toList).length := by
  refine ⟨(claim_C7 _).1, ?_⟩
  exact (claim_C7 ("Fix database connection timeout issues".toList)).2.1
    ("database".toList) (by decide)

/-- Claim C8: scoring is case-insensitive in the candidate name — scoring a
candidate and scoring its lower-cased form yield the very same outcome,
because the scorer lower-cases the name first (index_jira_backup.js:112)
and lower-casing is idempotent. -/
theorem claim_C8 (name : Str) (keywords : List Str) (ticketId : Str) :
    scoreRelevance (toLowerStr name) keywords ticketId =
      scoreRelevance name keywords ticketId := by
  have hc : cleanNameOf (toLowerStr name) ticketId = cleanNameOf name ticketId := by
    unfold cleanNameOf
    rw [toLowerStr_idem]
  unfold scoreRelevance
  rw [hc]

/-- Claim C10: in the simple validator, a `validateBoth` result that is valid
with both sub-results carrying ticket IDs has equal ticket IDs; and when both
sub-validations succeed but the ticket IDs differ, `validateBoth` returns
invalid with the ticket-ID-mismatch message (src/unnamed/part_002:232-258). -/
theorem claim_C10 (cfg : SimpleConfig) (branchName commitMessage : Str) :
    ((validateBoth cfg branchName commitMessage).valid = true →
      ∀ x y, (validateBranchName cfg branchName).ticketId = some x →
        (validateCommitMessage cfg commitMessage).ticketId = some y → x = y) ∧
    (∀ x y, (validateBranchName cfg branchName).valid = true →
      (validateCommitMessage cfg commitMessage).valid = true →
      (validateBranchName cfg branchName).ticketId = some x →
      (validateCommitMessage cfg commitMessage).ticketId = some y → x ≠ y →
      (validateBoth cfg branchName commitMessage).valid = false ∧
      (validateBoth cfg branchName commitMessage).message = mismatchMessage x y) := by
  unfold validateBoth
  by_cases hcond : ((validateBranchName cfg branchName).valid &&
      (validateCommitMessage cfg commitMessage).valid &&
      (validateBranchName cfg branchName).ticketId.isSome &&
      (validateCommitMessage cfg commitMessage).ticketId.isSome &&
      !((validateBranchName cfg branchName).ticketId ==
        (validateCommitMessage cfg commitMessage).ticketId)) = true
  · rw [if_pos hcond]
    constructor
    · intro hv
      exact absurd hv (by simp)
    · intro x y hbv hcv hbx hcy hxy
      refine ⟨rfl, ?_⟩
      simp only [hbx, hcy]
      rfl
  · rw [if_neg hcond]
    constructor
    · intro hv x y hbx hcy
      by_contra hne
      simp only [Bool.and_eq_true] at hv
      apply hcond
      simp [hv.1, hv.2, hbx, hcy]
      exact hne
    · intro x y hbv hcv hbx hcy hxy
      exfalso
      apply hcond
      simp [hbv, hcv, hbx, hcy, hxy]

/-- Witness for claim C10 at concrete inputs with mismatched ticket IDs. -/
theorem claim_C10_witness :
    (validateBoth defaultConfig ("feature/SHOP-1-x".toList) ("PROJ-2-y".toList)).valid = false ∧
    (validateBoth defaultConfig ("feature/SHOP-1-x".toList) ("PROJ-2-y".toList)).message =
      mismatchMessage ("SHOP-1".toList) ("PROJ-2".toList) := by
  exact (claim_C10 defaultConfig ("feature/SHOP-1-x".toList) ("PROJ-2-y".toList)).2
    ("SHOP-1".toList) ("PROJ-2".toList)
    (by decide) (by decide) (by decide) (by decide) (by decide)
